import Mathlib

/-!
Verification development for the AWS authentication core of the
cerberus-go-client repository (package `auth`, file `aws.go`).

The Go code is shallowly embedded: the `AWSAuth` struct becomes a Lean
structure, its methods become pure Lean functions, and every external
effect (the HTTP exchange with Cerberus, the KMS decrypt call, the JSON
and base64 decoders of the standard library, the EC2 metadata lookup)
is passed in explicitly as the outcome the Go code would observe at the
corresponding call site.  Time is an explicit `Int` parameter (`now`),
matching `time.Now()` at the points the code reads the clock.

Definitions are translated from `src/auth/aws.go` unless their doc
comment starts with `Modelled from the spec:`, which marks repository
code that is not under `src/` (the shared session protocol in the
`auth` package, `utils.ValidateURL`, and the `api` package constants
and response types), modelled from the specification's words.
-/

namespace Cerberus

/-- Header maps.  Go's `http.Header` is a map from header name to
values; the code only ever uses `Set`, `Del` and single-valued reads,
so an association list with set/delete/get is a faithful embedding. -/
def Headers : Type := List (String × String)

instance : DecidableEq Headers := by
  unfold Headers
  infer_instance

/-- `http.Header.Set`: replace any existing entry for the key. -/
def hSet (h : Headers) (k v : String) : Headers :=
  (k, v) :: (List.filter (fun p => p.1 ≠ k) h)

/-- `http.Header.Del`: remove every entry for the key. -/
def hDel (h : Headers) (k : String) : Headers :=
  List.filter (fun p => p.1 ≠ k) h

/-- `http.Header.Get`: first value for the key, `""` when absent. -/
def hGet (h : Headers) (k : String) : String :=
  match List.find? (fun p => p.1 = k) h with
  | some p => p.2
  | none => ""

/-- Parsed URL: scheme, host, path.  `net/url.URL` restricted to the
fields this code reads and writes (`Path` is overwritten before each
request; `String()` reassembles scheme://host+path). -/
structure URL where
  scheme : String
  host : String
  path : String
deriving DecidableEq

/-- Error taxonomy of the embedding.  `unauthorized` and
`unauthenticated` embed the distinguished `api.ErrorUnauthorized` and
`api.ErrorUnauthenticated` values; the remaining constructors embed the
distinct `fmt.Errorf` values produced at each failure site of
`aws.go`, keeping which-branch-failed observable. -/
inductive ApiError where
  | regionEmpty
  | urlEmpty
  | invalidURL
  | identityResolution
  | transport
  | unauthorized
  | unauthenticated
  | authenticationFailed (status : Nat)
  | malformedResponse
  | invalidAuthData
  | decryptionFailed
  | malformedEnvelope
  | logoutFailed (status : Nat)
deriving DecidableEq

/-- Modelled from the spec: `api.ClientHeader`, the value of the
client-identification header set by the `api` package (not under
`src/`).  Its exact value is immaterial to every claim. -/
def ClientHeader : String := "CerberusGoClient"

/-- The `AWSAuth` struct of `aws.go` lines 41-49.  The `kmsClient`
field is an external capability; its behaviour enters the embedding as
the `kmsDecrypt` oracle of `AuthEnv` below.  `expiry` is an `Int`
timestamp (Go `time.Time`, zero value `0`). -/
structure AWSAuth where
  token : String
  region : String
  roleARN : String
  expiry : Int
  baseURL : URL
  headers : Headers
deriving DecidableEq

/-- The `awsAuthBody` struct of `aws.go` lines 51-54: JSON field
`iam_principal_arn` for `PrincipalArn` and `region` for `Region`,
neither tagged `omitempty`. -/
structure awsAuthBody where
  principalArn : String
  region : String
deriving DecidableEq

/-- The `iamIntermediateResp` struct of `aws.go` lines 56-58. -/
structure iamIntermediateResp where
  authData : String
deriving DecidableEq

/-- Modelled from the spec: `api.IAMAuthResponse` (not under `src/`),
the DecryptedCredentialEnvelope of spec section 3: token, policies,
lease duration in seconds, renewable flag, metadata map.  Only `token`
and `duration` feed the token state. -/
structure IAMAuthResponse where
  token : String
  policies : List String
  duration : Nat
  renewable : Bool
  metadata : List (String × String)
deriving DecidableEq

/-- Hex digit for the `\u00XX` escapes of control characters. -/
def hexDigit (n : Nat) : String :=
  if n < 10 then String.singleton (Char.ofNat (48 + n))
  else String.singleton (Char.ofNat (87 + n))

/-- Escape one character the way Go `encoding/json` does when
marshalling a string with the default HTML-escaping encoder: quote,
backslash, angle brackets, ampersand, the named control escapes, other
control characters as `\u00XX`, and U+2028/U+2029. -/
def goJSONEscapeChar (c : Char) : String :=
  if c = '\"' then "\\\""
  else if c = '\\' then "\\\\"
  else if c = '<' then "\\u003c"
  else if c = '>' then "\\u003e"
  else if c = '&' then "\\u0026"
  else if c = '\n' then "\\n"
  else if c = '\r' then "\\r"
  else if c = '\t' then "\\t"
  else if c.toNat < 32 then "\\u00" ++ hexDigit (c.toNat / 16) ++ hexDigit (c.toNat % 16)
  else if c.toNat = 8232 then "\\u2028"
  else if c.toNat = 8233 then "\\u2029"
  else String.singleton c

/-- Go JSON string literal: quoted, characters escaped. -/
def goJSONString (s : String) : String :=
  "\"" ++ String.join (List.map goJSONEscapeChar s.data) ++ "\""

/-- `json.NewEncoder(body).Encode(awsAuthBody{...})` at `aws.go` lines
129-132: Go marshals the struct fields in declaration order with no
`omitempty`, so the zero-valued `PrincipalArn` is serialized as
`"iam_principal_arn":""`; `Encoder.Encode` appends a newline.
Marshalling a struct of two strings never fails, so the error branch
at line 133 is dead and the encoding is total. -/
def awsAuthBodyEncode (b : awsAuthBody) : String :=
  "\x7b\"iam_principal_arn\":" ++ goJSONString b.principalArn ++
    ",\"region\":" ++ goJSONString b.region ++ "\x7d\n"

/-- An HTTP request as `http.NewRequest` builds it. -/
structure Request where
  method : String
  url : URL
  body : String
  headers : Headers
deriving DecidableEq

/-- The request construction of `authenticate`, `aws.go` lines
126-140: copy the base URL, set its path to `/v2/auth/iam-principal`,
encode `awsAuthBody{Region: a.region}` (leaving `PrincipalArn` at its
zero value `""`), POST, and attach `a.headers` wholesale.
`http.NewRequest` cannot fail here: the method is literal and the URL
comes from an already-parsed base URL, so the error branch at line 137
is dead. -/
def AWSAuth.buildAuthRequest (a : AWSAuth) : Request :=
  { method := "POST"
  , url := { a.baseURL with path := "/v2/auth/iam-principal" }
  , body := awsAuthBodyEncode { principalArn := "", region := a.region }
  , headers := a.headers }

/-- Outcome of `cl.Do(req)` at `aws.go` line 143 together with the
JSON decoding of the response body attempted at lines 157-159:
either a transport error, or a status code plus the result the
`json.Decoder` would produce on the body (consulted only on the 200
path, exactly as in the code). -/
inductive HttpOutcome where
  | transportError
  | response (status : Nat) (bodyDecode : Except Unit iamIntermediateResp)

/-- The external world of one `authenticate` call: the HTTP exchange,
the base64 decoder (`aws.go` line 165), the `kmsClient.Decrypt` call
(line 172), and the `json.Unmarshal` of the decrypted plaintext
(line 177), each as the outcome observed at its call site. -/
structure AuthEnv where
  http : HttpOutcome
  base64Decode : String → Except Unit (List Nat)
  kmsDecrypt : List Nat → Except Unit (List Nat)
  parseEnvelope : List Nat → Except Unit IAMAuthResponse

/-- `(*AWSAuth).authenticate`, `aws.go` lines 124-186.  `now` is
`time.Now()` at line 184.  Every failure branch returns the incoming
state unchanged; the success path (lines 181-184) sets the token, the
`X-Vault-Token` header and the expiry in one step. -/
def AWSAuth.authenticate (a : AWSAuth) (env : AuthEnv) (now : Int) :
    AWSAuth × Option ApiError :=
  match env.http with
  | .transportError => (a, some .transport)
  | .response status bodyDecode =>
    if status = 401 ∨ status = 403 then (a, some .unauthorized)
    else if status ≠ 200 then (a, some (.authenticationFailed status))
    else
      match bodyDecode with
      | .error _ => (a, some .malformedResponse)
      | .ok intermediate =>
        match env.base64Decode intermediate.authData with
        | .error _ => (a, some .invalidAuthData)
        | .ok binaryData =>
          match env.kmsDecrypt binaryData with
          | .error _ => (a, some .decryptionFailed)
          | .ok plaintext =>
            match env.parseEnvelope plaintext with
            | .error _ => (a, some .malformedEnvelope)
            | .ok r =>
              ({ a with
                  token := r.token
                , headers := hSet a.headers "X-Vault-Token" r.token
                , expiry := now + (r.duration : Int) }, none)

/-- `(*AWSAuth).IsAuthenticated`, `aws.go` lines 189-191:
`len(a.token) > 0 && time.Now().Before(a.expiry)`; `Before` is the
strict order on times. -/
def AWSAuth.isAuthenticated (a : AWSAuth) (now : Int) : Bool :=
  a.token.length > 0 && now < a.expiry

/-- Result of one `GetToken` call, with an explicit trace bit
recording whether the authentication network exchange ran. -/
structure GetTokenResult where
  token : String
  err : Option ApiError
  state : AWSAuth
  networkCall : Bool
deriving DecidableEq

/-- `(*AWSAuth).GetToken`, `aws.go` lines 116-122: return the cached
token when live, otherwise run `authenticate` and return the (possibly
updated) token field together with its error.  The `*os.File`
parameter of the Go signature is unused by the body and omitted. -/
def AWSAuth.getToken (a : AWSAuth) (env : AuthEnv) (now : Int) :
    GetTokenResult :=
  if a.isAuthenticated now then
    { token := a.token, err := none, state := a, networkCall := false }
  else
    let r := a.authenticate env now
    { token := r.1.token, err := r.2, state := r.1, networkCall := true }

/-- Strip `pat` from the front of a character list, returning the
remainder when it matches. -/
def dropPat : List Char → List Char → Option (List Char)
  | cs, [] => some cs
  | [], _ :: _ => none
  | c :: cs, p :: ps => if c = p then dropPat cs ps else none

/-- Replace the first occurrence of `pat` by `repl`, scanning left to
right; the list is returned unchanged when `pat` never occurs. -/
def replaceFirstAux (pat repl : List Char) : List Char → List Char
  | [] => []
  | c :: cs =>
    match dropPat (c :: cs) pat with
    | some rest => repl ++ rest
    | none => c :: replaceFirstAux pat repl cs

/-- `strings.Replace(s, pat, repl, 1)` as used at `aws.go` line 88:
replace the first occurrence of `pat` (a fixed non-empty literal
there) by `repl`. -/
def replaceFirst (s pat repl : String) : String :=
  String.mk (replaceFirstAux pat.data repl.data s.data)

/-- Split a character list at the first `://`, returning the
accumulated scheme (reversed accumulator) and the remainder. -/
def splitScheme : List Char → List Char → Option (List Char × List Char)
  | _, [] => none
  | acc, ':' :: '/' :: '/' :: rest => some (acc.reverse, rest)
  | acc, c :: rest => splitScheme (c :: acc) rest

/-- Modelled from the spec: `utils.ValidateURL` (not under `src/`).
Spec section 3 (ServiceEndpoint) and section 8: validation accepts a
syntactically valid absolute URL — a non-empty scheme, `://`, a
non-empty host — whose path component is empty, and rejects empty
strings and URLs carrying a path. -/
def validateURL (s : String) : Except ApiError URL :=
  match splitScheme [] s.data with
  | none => .error .invalidURL
  | some (schemeChars, restChars) =>
    if schemeChars = [] then .error .invalidURL
    else
      let hostChars := List.takeWhile (fun c => c ≠ '/') restChars
      let pathChars := List.dropWhile (fun c => c ≠ '/') restChars
      if hostChars = [] then .error .invalidURL
      else if pathChars = [] then
        .ok { scheme := String.mk schemeChars
            , host := String.mk hostChars
            , path := "" }
      else .error .invalidURL

/-- `true` exactly when `validateURL` accepts the string. -/
def validURL (s : String) : Bool :=
  match validateURL s with
  | .ok _ => true
  | .error _ => false

/-- `NewAWSAuth`, `aws.go` lines 64-106.  `envURL` is
`os.Getenv("CERBERUS_URL")` (Go returns `""` when the variable is
unset, and the code overrides the argument whenever it is non-empty).
`iamInfo` is the combined outcome of the AWS session construction and
the EC2-metadata `IAMInfo()` lookup (lines 81-95), external effects
whose failure aborts construction; on success it carries the
instance-profile ARN, rewritten to a role ARN at line 88.  The checks
run in source order: environment override, empty region, empty URL,
URL validation, identity resolution. -/
def NewAWSAuth (envURL cerberusURL region : String)
    (iamInfo : Except ApiError String) : Except ApiError AWSAuth :=
  let cerberusURL := if envURL ≠ "" then envURL else cerberusURL
  if region.length = 0 then .error .regionEmpty
  else if cerberusURL.length = 0 then .error .urlEmpty
  else
    match validateURL cerberusURL with
    | .error e => .error e
    | .ok parsedURL =>
      match iamInfo with
      | .error e => .error e
      | .ok instanceProfileArn =>
        let iamRole := replaceFirst instanceProfileArn (":instance-profile/") (":role/")
        .ok { token := ""
            , region := region
            , roleARN := iamRole
            , expiry := 0
            , baseURL := parsedURL
            , headers := [("X-Cerberus-Client", ClientHeader),
                          ("Content-Type", "application/json")] }

/-- Outcome of the DELETE `/v1/auth` round trip of the shared session
logout: a transport failure or a status code. -/
inductive SessionNet where
  | transportError
  | status (code : Nat)
deriving DecidableEq

/-- Modelled from the spec: the shared `Logout(url, headers)` of the
`auth` package (not under `src/`), spec section 4.5: DELETE
`\x7bendpoint\x7d/v1/auth` with the given headers; success is exactly
HTTP 204 and anything else — including other 2xx codes and transport
failures — is an error. -/
def sessionLogout (net : SessionNet) : Option ApiError :=
  match net with
  | .transportError => some .transport
  | .status code => if code = 204 then none else some (.logoutFailed code)

/-- Result of one `Logout` call on an `AWSAuth`, with an explicit
trace bit recording whether the DELETE round trip ran. -/
structure LogoutResult where
  state : AWSAuth
  err : Option ApiError
  networkCall : Bool
deriving DecidableEq

/-- `(*AWSAuth).Logout`, `aws.go` lines 212-224.  The
`IsAuthenticated` guard at lines 213-215 is commented out in the
source, so the shared session logout round trip runs unconditionally
(`networkCall := true` on every path); on its success the token is
cleared and the `X-Vault-Token` header deleted (lines 221-222), on its
failure the state is returned unchanged. -/
def AWSAuth.logout (a : AWSAuth) (net : SessionNet) : LogoutResult :=
  match sessionLogout net with
  | some e => { state := a, err := some e, networkCall := true }
  | none =>
    { state := { a with token := "", headers := hDel a.headers "X-Vault-Token" }
    , err := none
    , networkCall := true }

/-! ### Helper lemmas -/

/-- Every run of `authenticate` either leaves the state untouched or
succeeds: there is no branch that both reports an error and writes. -/
theorem authenticate_cases (a : AWSAuth) (env : AuthEnv) (now : Int) :
    (a.authenticate env now).1 = a ∨ (a.authenticate env now).2 = none := by
  unfold AWSAuth.authenticate
  cases env.http with
  | transportError => exact Or.inl rfl
  | response status bodyDecode =>
    by_cases h1 : status = 401 ∨ status = 403
    · simp [h1]
    · by_cases h2 : status = 200
      · cases bodyDecode with
        | error e => simp [h1, h2]
        | ok intermediate =>
          cases h3 : env.base64Decode intermediate.authData with
          | error e => simp [h1, h2, h3]
          | ok binaryData =>
            cases h4 : env.kmsDecrypt binaryData with
            | error e => simp [h1, h2, h3, h4]
            | ok plaintext =>
              cases h5 : env.parseEnvelope plaintext with
              | error e => simp [h1, h2, h3, h4, h5]
              | ok r => simp [h1, h2, h3, h4, h5]
      · simp [h1, h2]

/-- A failing `authenticate` run returns the incoming state. -/
theorem authenticate_fail_frame (a : AWSAuth) (env : AuthEnv) (now : Int)
    (e : ApiError) (h : (a.authenticate env now).2 = some e) :
    (a.authenticate env now).1 = a := by
  rcases authenticate_cases a env now with h1 | h1
  · exact h1
  · rw [h1] at h
    cases h

/-- Deleting a key from a header map makes `hGet` return `""`. -/
theorem hGet_hDel (h : Headers) (k : String) : hGet (hDel h k) k = "" := by
  unfold hGet hDel
  have : List.find? (fun p => p.1 = k) (List.filter (fun p => p.1 ≠ k) h) = none := by
    rw [List.find?_eq_none]
    intro p hp
    have := List.of_mem_filter hp
    simpa using this
  rw [this]

/-! ### Concrete fixtures used by witnesses -/

/-- A freshly-constructed authenticator state, as `NewAWSAuth` builds
it for `https://test.example.com` and region `us-west-2`. -/
def freshAuth : AWSAuth :=
  { token := ""
  , region := "us-west-2"
  , roleARN := "arn:aws:iam::111111111:role/fake-role"
  , expiry := 0
  , baseURL := { scheme := "https", host := "test.example.com", path := "" }
  , headers := [("X-Cerberus-Client", ClientHeader),
                ("Content-Type", "application/json")] }

/-- `freshAuth` carrying a token with expiry 100. -/
def liveAuth : AWSAuth :=
  { freshAuth with
      token := "mon-calamari"
    , expiry := 100
    , headers := hSet freshAuth.headers "X-Vault-Token" "mon-calamari" }

/-- An exchange environment whose HTTP round trip answers 500. -/
def env500 : AuthEnv :=
  { http := .response 500 (.error ())
  , base64Decode := fun _ => .error ()
  , kmsDecrypt := fun _ => .error ()
  , parseEnvelope := fun _ => .error () }

/-- The successful-exchange environment of the test suite: 200 with a
decodable body, base64 and KMS both succeed, and the plaintext parses
to the `a-cool-token` envelope with a 3600-second lease. -/
def envOk : AuthEnv :=
  { http := .response 200 (.ok { authData := "VGhpcyBpcyBhIHJhbmRvbSBzdHJpbmc=" })
  , base64Decode := fun _ => .ok [84, 104, 105, 115]
  , kmsDecrypt := fun _ => .ok [123, 125]
  , parseEnvelope := fun _ =>
      .ok { token := "a-cool-token"
          , policies := ["foo-bar-read", "lookup-self"]
          , duration := 3600
          , renewable := true
          , metadata := [("aws_region", "us-west-2")] } }

/-! ### Claim theorems -/

/-- C4: `IsAuthenticated` returns `true` exactly when the stored token
is non-empty and the current time is strictly before the stored
expiry; at `now = expiry` it returns `false`.  The embedding of
`IsAuthenticated` is a pure function of the state and the clock, so it
has no side effect on any state by construction. -/
theorem isAuthenticated_spec (a : AWSAuth) (now : Int) :
    (a.isAuthenticated now = true ↔ a.token ≠ "" ∧ now < a.expiry) ∧
    a.isAuthenticated a.expiry = false := by
  constructor
  · unfold AWSAuth.isAuthenticated
    rw [Bool.and_eq_true, decide_eq_true_iff, decide_eq_true_iff]
    constructor
    · rintro ⟨h1, h2⟩
      refine ⟨?_, h2⟩
      intro hc
      rw [hc] at h1
      simp at h1
    · rintro ⟨h1, h2⟩
      refine ⟨?_, h2⟩
      have : a.token.length ≠ 0 := by
        intro hc
        apply h1
        apply String.ext
        have hd : a.token.data.length = 0 := hc
        simpa using List.eq_nil_of_length_eq_zero hd
      omega
  · unfold AWSAuth.isAuthenticated
    simp

/-- C5: every failure branch of the authentication exchange —
transport failure, 401/403, other non-200 status, JSON decode
failure, base64 decode failure, decrypt failure, envelope parse
failure — returns an error and leaves the token, the expiry and the
session headers exactly as they were; no partial update is
observable. -/
theorem authenticate_failure_frame_spec (a : AWSAuth) (env : AuthEnv)
    (now : Int) (e : ApiError) (h : (a.authenticate env now).2 = some e) :
    ((a.authenticate env now).1).token = a.token ∧
    ((a.authenticate env now).1).expiry = a.expiry ∧
    ((a.authenticate env now).1).headers = a.headers := by
  rw [authenticate_fail_frame a env now e h]
  exact ⟨rfl, rfl, rfl⟩

/-- Witness for C5 at the concrete 500-status environment. -/
theorem authenticate_failure_frame_spec_witness :
    ((freshAuth.authenticate env500 0).1).token = freshAuth.token ∧
    ((freshAuth.authenticate env500 0).1).expiry = freshAuth.expiry ∧
    ((freshAuth.authenticate env500 0).1).headers = freshAuth.headers :=
  authenticate_failure_frame_spec freshAuth env500 0
    (ApiError.authenticationFailed 500) rfl

/-- The key just set by `hSet` reads back as its value. -/
theorem hGet_hSet (h : Headers) (k v : String) : hGet (hSet h k v) k = v := by
  unfold hGet hSet
  simp [List.find?]

/-- An exchange environment whose HTTP round trip answers 401. -/
def env401 : AuthEnv :=
  { http := .response 401 (.error ())
  , base64Decode := fun _ => .error ()
  , kmsDecrypt := fun _ => .error ()
  , parseEnvelope := fun _ => .error () }

/-- C7: during the authentication exchange a 401 or 403 response
yields exactly the distinguished `Unauthorized` error, and any other
non-200 status yields an `AuthenticationFailed` error carrying that
status code.  The embedding of `authenticate` consumes its environment
once and returns, so neither outcome is retried. -/
theorem authenticate_status_errors (a : AWSAuth) (env : AuthEnv) (now : Int)
    (status : Nat) (bodyDecode : Except Unit iamIntermediateResp)
    (h : env.http = .response status bodyDecode) :
    ((status = 401 ∨ status = 403) →
      (a.authenticate env now).2 = some ApiError.unauthorized) ∧
    (¬(status = 401 ∨ status = 403) → status ≠ 200 →
      (a.authenticate env now).2 = some (ApiError.authenticationFailed status)) := by
  unfold AWSAuth.authenticate
  rw [h]
  dsimp only
  constructor
  · intro hs
    rw [if_pos hs]
  · intro hs hs2
    rw [if_neg hs, if_pos hs2]

/-- Witness for C7 at the concrete 401 and 500 environments. -/
theorem authenticate_status_errors_witness :
    (freshAuth.authenticate env401 0).2 = some ApiError.unauthorized ∧
    (freshAuth.authenticate env500 0).2 = some (ApiError.authenticationFailed 500) :=
  ⟨(authenticate_status_errors freshAuth env401 0 401 (.error ()) rfl).1
      (Or.inl rfl),
   (authenticate_status_errors freshAuth env500 0 500 (.error ()) rfl).2
      (by decide) (by decide)⟩

/-- C8: on a successful authentication exchange the token is set to
the envelope token, the expiry to `now + leaseDurationSeconds`, and
the `X-Vault-Token` session header to the token value, all in the one
returned state — token and expiry never change separately. -/
theorem authenticate_success_spec (a : AWSAuth) (env : AuthEnv) (now : Int)
    (intermediate : iamIntermediateResp) (binaryData plaintext : List Nat)
    (r : IAMAuthResponse)
    (h1 : env.http = .response 200 (.ok intermediate))
    (h2 : env.base64Decode intermediate.authData = .ok binaryData)
    (h3 : env.kmsDecrypt binaryData = .ok plaintext)
    (h4 : env.parseEnvelope plaintext = .ok r) :
    a.authenticate env now =
      ({ a with
          token := r.token
        , headers := hSet a.headers "X-Vault-Token" r.token
        , expiry := now + (r.duration : Int) }, none) ∧
    hGet ((a.authenticate env now).1).headers "X-Vault-Token" = r.token := by
  have hmain : a.authenticate env now =
      ({ a with
          token := r.token
        , headers := hSet a.headers "X-Vault-Token" r.token
        , expiry := now + (r.duration : Int) }, none) := by
    unfold AWSAuth.authenticate
    rw [h1]
    simp [h2, h3, h4]
  refine ⟨hmain, ?_⟩
  rw [hmain]
  exact hGet_hSet a.headers "X-Vault-Token" r.token

/-- Witness for C8 at the concrete successful environment. -/
theorem authenticate_success_spec_witness :
    freshAuth.authenticate envOk 10 =
      ({ freshAuth with
          token := "a-cool-token"
        , headers := hSet freshAuth.headers "X-Vault-Token" "a-cool-token"
        , expiry := 10 + (3600 : Int) }, none) ∧
    hGet ((freshAuth.authenticate envOk 10).1).headers "X-Vault-Token" =
      "a-cool-token" :=
  authenticate_success_spec freshAuth envOk 10
    { authData := "VGhpcyBpcyBhIHJhbmRvbSBzdHJpbmc=" }
    [84, 104, 105, 115] [123, 125]
    { token := "a-cool-token"
    , policies := ["foo-bar-read", "lookup-self"]
    , duration := 3600
    , renewable := true
    , metadata := [("aws_region", "us-west-2")] }
    rfl rfl rfl rfl

/-- C9: while the cached token is live, `GetToken` returns it with no
network round trip and no change to any state.  Applying this theorem
to the state produced by any earlier `GetToken` call shows that two
successive calls while the token stays live perform exactly one round
trip in total: only the first (miss) call sets its `networkCall` bit. -/
theorem getToken_cached_spec (a : AWSAuth) (env : AuthEnv) (now : Int)
    (h : a.isAuthenticated now = true) :
    a.getToken env now =
      { token := a.token, err := none, state := a, networkCall := false } := by
  unfold AWSAuth.getToken
  rw [h]
  simp

/-- Witness for C9 at the concrete live state. -/
theorem getToken_cached_spec_witness :
    liveAuth.getToken env500 0 =
      { token := liveAuth.token, err := none, state := liveAuth
      , networkCall := false } :=
  getToken_cached_spec liveAuth env500 0 (by decide)

/-- `freshAuth` carrying a token that is already expired at time 5. -/
def staleAuth : AWSAuth :=
  { freshAuth with token := "stale-token", expiry := 5 }

/-- C10: when the stored token is non-empty but expired and the
re-authentication triggered by `GetToken` fails, `GetToken` returns
the previously stored stale token together with the error, not an
empty string. -/
theorem getToken_stale_token_spec (a : AWSAuth) (env : AuthEnv) (now : Int)
    (e : ApiError) (hTok : a.token ≠ "")
    (hLive : a.isAuthenticated now = false)
    (hFail : (a.authenticate env now).2 = some e) :
    (a.getToken env now).token = a.token ∧
    (a.getToken env now).err = some e ∧
    (a.getToken env now).token ≠ "" := by
  have hframe := authenticate_fail_frame a env now e hFail
  unfold AWSAuth.getToken
  rw [hLive]
  simp only [Bool.false_eq_true, if_false]
  exact ⟨by rw [hframe], by rw [hFail], by rw [hframe]; exact hTok⟩

/-- Witness for C10: stale token at its exact expiry instant, failing
exchange. -/
theorem getToken_stale_token_spec_witness :
    (staleAuth.getToken env500 5).token = staleAuth.token ∧
    (staleAuth.getToken env500 5).err =
      some (ApiError.authenticationFailed 500) ∧
    (staleAuth.getToken env500 5).token ≠ "" :=
  getToken_stale_token_spec staleAuth env500 5
    (ApiError.authenticationFailed 500) (by decide) (by decide) rfl

/-- C6: on an authenticated instance, a 204 reply to the logout round
trip clears the token and removes the `X-Vault-Token` session header;
any other status, or a transport failure, returns an error and leaves
the token and the header unchanged. -/
theorem logout_authenticated_spec (a : AWSAuth) (now : Int) (code : Nat)
    (_h : a.isAuthenticated now = true) :
    a.logout (SessionNet.status 204) =
      { state := { a with token := "", headers := hDel a.headers "X-Vault-Token" }
      , err := none, networkCall := true } ∧
    hGet ((a.logout (SessionNet.status 204)).state).headers "X-Vault-Token" = "" ∧
    (code ≠ 204 → a.logout (SessionNet.status code) =
      { state := a, err := some (ApiError.logoutFailed code)
      , networkCall := true }) ∧
    a.logout SessionNet.transportError =
      { state := a, err := some ApiError.transport, networkCall := true } := by
  refine ⟨rfl, ?_, ?_, rfl⟩
  · exact hGet_hDel a.headers "X-Vault-Token"
  · intro hc
    unfold AWSAuth.logout sessionLogout
    dsimp only
    rw [if_neg hc]

/-- Witness for C6 at the concrete live state with a 204 and a 500
reply. -/
theorem logout_authenticated_spec_witness :
    liveAuth.logout (SessionNet.status 204) =
      { state := { liveAuth with
                    token := ""
                  , headers := hDel liveAuth.headers "X-Vault-Token" }
      , err := none, networkCall := true } ∧
    liveAuth.logout (SessionNet.status 500) =
      { state := liveAuth, err := some (ApiError.logoutFailed 500)
      , networkCall := true } :=
  ⟨(logout_authenticated_spec liveAuth 0 500 (by decide)).1,
   (logout_authenticated_spec liveAuth 0 500 (by decide)).2.2.1 (by decide)⟩

/-- C2 (code bug): on a never-authenticated instance — token unset,
exactly as `NewAWSAuth` leaves it — `Logout` still performs the DELETE
round trip (`networkCall = true`), because the `IsAuthenticated` guard
at `aws.go` lines 213-215 is commented out, and when the server
answers 204 it returns no error at all; the test suite
(`TestLogoutAWS`, "An unauthenticated AWSAuth") instead expects
exactly the `Unauthenticated` error and no call. -/
theorem logout_unauthenticated_code_bug :
    freshAuth.token = "" ∧
    (freshAuth.logout (SessionNet.status 204)).networkCall = true ∧
    (freshAuth.logout (SessionNet.status 204)).err = none ∧
    (freshAuth.logout (SessionNet.status 204)).err ≠
      some ApiError.unauthenticated :=
  ⟨rfl, rfl, rfl, by decide⟩

/-- A string of length zero is the empty string. -/
theorem string_length_eq_zero_iff (s : String) : s.length = 0 ↔ s = "" := by
  constructor
  · intro h
    apply String.ext
    exact List.eq_nil_of_length_eq_zero h
  · intro h
    rw [h]
    rfl

/-- Core construction lemma: after the environment override resolves
the effective URL, `NewAWSAuth` (with identity resolution held
successful) succeeds exactly when that URL validates and the region is
non-empty. -/
theorem newAWSAuth_ok_core (envU url region arn : String) :
    (∃ a, NewAWSAuth envU url region (Except.ok arn) = Except.ok a) ↔
      (validURL (if envU ≠ "" then envU else url) = true ∧ region ≠ "") := by
  unfold NewAWSAuth
  generalize (if envU ≠ "" then envU else url) = eff
  by_cases hr : region.length = 0
  · rw [if_pos hr]
    simp [(string_length_eq_zero_iff region).mp hr]
  · rw [if_neg hr]
    have hrne : region ≠ "" := by
      intro hc
      exact hr ((string_length_eq_zero_iff region).mpr hc)
    by_cases hu : eff.length = 0
    · rw [if_pos hu]
      have hue : eff = "" := (string_length_eq_zero_iff _).mp hu
      rw [hue]
      simp [validURL, validateURL, splitScheme]
    · rw [if_neg hu]
      cases hv : validateURL eff with
      | error e => simp [validURL, hv, hrne]
      | ok u => simp [validURL, hv, hrne]

/-- C3: with the base-URL environment variable unset, construction
succeeds if and only if the endpoint is non-empty, parses as an
absolute URL with an empty path, and the region is non-empty; with the
variable set to a non-empty value, that value takes precedence and the
supplied endpoint is ignored.  Identity resolution — an external
environment effect that `NewAWSAuth` also requires — is held
successful (`Except.ok arn`); when it fails the constructor propagates
its error.  In every failing case the `Except` carries an error and no
instance. -/
theorem newAWSAuth_construction_spec (url region arn : String) :
    ((∃ a, NewAWSAuth "" url region (Except.ok arn) = Except.ok a) ↔
      (url ≠ "" ∧ validURL url = true ∧ region ≠ "")) ∧
    (∀ envU, envU ≠ "" →
      ((∃ a, NewAWSAuth envU url region (Except.ok arn) = Except.ok a) ↔
        (validURL envU = true ∧ region ≠ ""))) := by
  constructor
  · rw [newAWSAuth_ok_core]
    rw [if_neg (by simp)]
    constructor
    · rintro ⟨hv, hr⟩
      refine ⟨?_, hv, hr⟩
      intro hc
      rw [hc] at hv
      exact absurd hv (by decide)
    · rintro ⟨_, hv, hr⟩
      exact ⟨hv, hr⟩
  · intro envU he
    rw [newAWSAuth_ok_core]
    rw [if_pos he]

/-- Witness for C3: construction succeeds at a concrete valid pair,
both without and with the environment override. -/
theorem newAWSAuth_construction_spec_witness :
    (∃ a, NewAWSAuth "" ("https://test.example.com") ("us-west-2")
        (Except.ok ("arn:aws:iam::111111111:instance-profile/fake-role")) =
      Except.ok a) ∧
    (∃ a, NewAWSAuth ("https://env.example.com") "" ("us-west-2")
        (Except.ok ("arn:aws:iam::111111111:instance-profile/fake-role")) =
      Except.ok a) :=
  ⟨((newAWSAuth_construction_spec ("https://test.example.com") ("us-west-2")
        ("arn:aws:iam::111111111:instance-profile/fake-role")).1).mpr
      ⟨by decide, by decide, by decide⟩,
   ((newAWSAuth_construction_spec "" ("us-west-2")
        ("arn:aws:iam::111111111:instance-profile/fake-role")).2
      ("https://env.example.com") (by decide)).mpr ⟨by decide, by decide⟩⟩

/-- Field inversion for a successful construction: the instance
carries the requested region, an empty token, and the two default
headers. -/
theorem newAWSAuth_fields (envU url region arn : String) (a : AWSAuth)
    (h : NewAWSAuth envU url region (Except.ok arn) = Except.ok a) :
    a.region = region ∧ a.token = "" ∧
    a.headers = [("X-Cerberus-Client", ClientHeader),
                 ("Content-Type", "application/json")] := by
  unfold NewAWSAuth at h
  dsimp only at h
  by_cases hr : region.length = 0
  · rw [if_pos hr] at h
    cases h
  · rw [if_neg hr] at h
    by_cases hu : (if envU ≠ "" then envU else url).length = 0
    · rw [if_pos hu] at h
      cases h
    · rw [if_neg hu] at h
      cases hv : validateURL (if envU ≠ "" then envU else url) with
      | error e =>
        rw [hv] at h
        cases h
      | ok u =>
        rw [hv] at h
        injection h with h
        subst h
        exact ⟨rfl, rfl, rfl⟩

/-- Encoding `awsAuthBody` with the zero-valued principal ARN, the one
call site of `authenticate`, written with the literal prefix fused. -/
theorem awsAuthBodyEncode_empty_arn (region : String) :
    awsAuthBodyEncode { principalArn := "", region := region } =
      "\x7b\"iam_principal_arn\":\"\",\"region\":" ++
        goJSONString region ++ "\x7d\n" := by
  unfold awsAuthBodyEncode
  have h0 : goJSONString "" = "\"\"" := rfl
  rw [h0]
  congr 1

/-- C1 counterexample: the authenticator constructed for region
`us-west-2` sends a POST body that carries an `iam_principal_arn`
field in addition to `region` (the Go struct field has no `omitempty`
tag and `authenticate` leaves it at its zero value), plus the
encoder's trailing newline, so the body is not exactly
`\x7b"region": identity.region\x7d`. -/
theorem authRequest_body_counterexample :
    NewAWSAuth "" ("https://test.example.com") ("us-west-2")
        (Except.ok ("arn:aws:iam::111111111:instance-profile/fake-role")) =
      Except.ok freshAuth ∧
    (freshAuth.buildAuthRequest).body =
      "\x7b\"iam_principal_arn\":\"\",\"region\":\"us-west-2\"\x7d\n" ∧
    (freshAuth.buildAuthRequest).body ≠ "\x7b\"region\":\"us-west-2\"\x7d" ∧
    (freshAuth.buildAuthRequest).body ≠ "\x7b\"region\":\"us-west-2\"\x7d\n" :=
  ⟨rfl, by decide, by decide, by decide⟩

/-- C1 (amended): for every constructed authenticator, `authenticate`
issues a POST request to `\x7bendpoint\x7d/v2/auth/iam-principal` whose JSON
body carries exactly two fields — `iam_principal_arn`, always
serialized as the empty string, and `region`, the construction
region — followed by the stream encoder's newline, with headers
containing the client-identification header. -/
theorem authRequest_spec (envU url region arn : String) (a : AWSAuth)
    (h : NewAWSAuth envU url region (Except.ok arn) = Except.ok a) :
    a.buildAuthRequest =
      { method := "POST"
      , url := { a.baseURL with path := "/v2/auth/iam-principal" }
      , body := "\x7b\"iam_principal_arn\":\"\",\"region\":" ++
          goJSONString region ++ "\x7d\n"
      , headers := a.headers } ∧
    hGet a.headers ("X-Cerberus-Client") = ClientHeader := by
  obtain ⟨hreg, -, hhead⟩ := newAWSAuth_fields envU url region arn a h
  constructor
  · unfold AWSAuth.buildAuthRequest
    rw [hreg, awsAuthBodyEncode_empty_arn]
  · rw [hhead]
    rfl

/-- Witness for amended C1 at the concrete construction. -/
theorem authRequest_spec_witness :
    freshAuth.buildAuthRequest =
      { method := "POST"
      , url := { freshAuth.baseURL with path := "/v2/auth/iam-principal" }
      , body := "\x7b\"iam_principal_arn\":\"\",\"region\":" ++
          goJSONString ("us-west-2") ++ "\x7d\n"
      , headers := freshAuth.headers } ∧
    hGet freshAuth.headers ("X-Cerberus-Client") = ClientHeader :=
  authRequest_spec "" ("https://test.example.com") ("us-west-2")
    ("arn:aws:iam::111111111:instance-profile/fake-role") freshAuth rfl

end Cerberus
